import Mathlib

/-!
Verification of the Neuro-Tracker statistics and pattern-detection engine
against its natural-language specification.

The data model (`DayEntry`) and the UI callers (`StatisticsDialog`,
`EntryPanel`) are embedded from the repository sources
`models/day_entry.py`, `ui/statistics_dialog.py` and `ui/entry_panel.py`.
The engine itself (`StatisticsCalculator`, file `utils/statistics.py`) is
not part of the available sources, so its two operations `calculate_all`
and `detect_patterns` are modelled from the specification text (sections
4.1 and 4.2), with dates embedded as integer day numbers so that
calendar-day arithmetic is integer addition.
-/

/-- A day record, embedded from `models/day_entry.py` (`class DayEntry`).
`date` is the ISO date string, `severity` is `None` or an integer, the
remaining fields are the stored strings. -/
structure DayEntry where
  date : String
  severity : Option Int
  foods : List String
  notes : String
  skin_notes : String
  food_notes : String
  created_at : String
  updated_at : String
deriving DecidableEq, Repr

/-- Python string truthiness of `a or b` for an optional string `a`:
`None` and the empty string are falsy, so they yield `b`. -/
def pyOrStr (a : Option String) (b : String) : String :=
  match a with
  | none => b
  | some s => if s = ("" : String) then b else s

/-- Embedding of `DayEntry.__init__`.  The wall-clock value
`datetime.now().isoformat()` is passed explicitly as `now`; `foods = None`
defaults to the empty list, and `created_at or now` / `updated_at or now`
use Python truthiness. -/
def DayEntry.init (now date : String) (severity : Option Int)
    (foods : Option (List String)) (notes skin_notes food_notes : String)
    (created_at updated_at : Option String) : DayEntry :=
  { date := date
    severity := severity
    foods := foods.getD []
    notes := notes
    skin_notes := skin_notes
    food_notes := food_notes
    created_at := pyOrStr created_at now
    updated_at := pyOrStr updated_at now }

/-- The JSON dictionary produced or consumed by `to_dict` / `from_dict`.
A field holding `none` stands for an absent key (for `severity` the value
itself is optional, and the key is always present in `to_dict` output). -/
structure EntryDict where
  date : String
  severity : Option Int
  foods : Option (List String)
  notes : Option String
  skin_notes : Option String
  food_notes : Option String
  created_at : Option String
  updated_at : Option String
deriving DecidableEq, Repr

/-- Embedding of `DayEntry.to_dict`: every key is emitted. -/
def DayEntry.to_dict (e : DayEntry) : EntryDict :=
  { date := e.date
    severity := e.severity
    foods := some e.foods
    notes := some e.notes
    skin_notes := some e.skin_notes
    food_notes := some e.food_notes
    created_at := some e.created_at
    updated_at := some e.updated_at }

/-- Embedding of `DayEntry.from_dict`: `data.get` with the defaults used in
the source, delegating to the constructor. -/
def DayEntry.from_dict (now : String) (d : EntryDict) : DayEntry :=
  DayEntry.init now d.date d.severity (some (d.foods.getD []))
    (d.notes.getD ("")) (d.skin_notes.getD ("")) (d.food_notes.getD (""))
    d.created_at d.updated_at

/-- Embedding of `DayEntry.update`: each `None` argument leaves the field
unchanged, and `updated_at` is set to the current clock value `now`. -/
def DayEntry.update (e : DayEntry) (now : String) (severity : Option Int)
    (foods : Option (List String)) (notes skin_notes food_notes : Option String) :
    DayEntry :=
  { date := e.date
    severity := match severity with
      | none => e.severity
      | some s => some s
    foods := foods.getD e.foods
    notes := notes.getD e.notes
    skin_notes := skin_notes.getD e.skin_notes
    food_notes := food_notes.getD e.food_notes
    created_at := e.created_at
    updated_at := now }

/-- The severity part of the data-model invariant: absent, or in [1,5]. -/
def sevOk : Option Int → Prop
  | none => True
  | some s => 1 ≤ s ∧ s ≤ 5

instance (o : Option Int) : Decidable (sevOk o) :=
  match o with
  | none => isTrue trivial
  | some _ => instDecidableAnd

/-- The per-entry data-model invariant from the specification: severity,
when present, lies in [1,5], and the foods list has no duplicate names. -/
def DayEntry.invariant (e : DayEntry) : Prop :=
  sevOk e.severity ∧ e.foods.Nodup

instance (e : DayEntry) : Decidable e.invariant :=
  instDecidableAnd

/-- Modelled from the spec: the engine's view of a stored record (spec
section 3), since `utils/statistics.py` (`StatisticsCalculator`) is not
among the available sources.  `date` is the calendar date as an integer
day number (days since the Unix epoch), so calendar-day arithmetic is
integer addition; `severity` is absent or an integer; `foods` is the list
of food-name strings. -/
structure StatEntry where
  date : Int
  severity : Option Int
  foods : List String
deriving DecidableEq, Repr

/-- Modelled from the spec: the `AggregateStats` result structure of
section 3.  The histogram and weekday maps are association lists over the
keys 1..5 and 0..6 respectively. -/
structure AggregateStats where
  total_entries : Nat
  average_severity : ℚ
  good_days : Nat
  bad_days : Nat
  severity_distribution : List (Int × Nat)
  top_foods : List (String × Nat)
  day_of_week_averages : List (Int × ℚ)
deriving DecidableEq, Repr

/-- Modelled from the spec: the `FoodPattern` result structure of
section 3. -/
structure FoodPattern where
  food : String
  total_occurrences : Nat
  triggered_reactions : Nat
  probability : Int
deriving DecidableEq, Repr

/-- Modelled from the spec (section 4.1): a date lies in the window of
`w` days ending `today` when it falls in `[today - (w - 1), today]`. -/
def inWindow (today : Int) (w : Nat) (d : Int) : Bool :=
  decide (today - ((w : Int) - 1) ≤ d) && decide (d ≤ today)

/-- Modelled from the spec (section 4.1): the entries considered by
`calculate_all` — all of them when `window_days` is absent, otherwise
those whose date lies in the window. -/
def windowedEntries (today : Int) (window_days : Option Nat)
    (entries : List StatEntry) : List StatEntry :=
  match window_days with
  | none => entries
  | some w => entries.filter (fun e => inWindow today w e.date)

/-- The severity values present in a list of entries. -/
def severities (l : List StatEntry) : List Int :=
  l.filterMap (fun e => e.severity)

/-- Modelled from the spec (section 4.1): mean severity of the
severity-bearing entries, `0` when there are none. -/
def averageSeverity (l : List StatEntry) : ℚ :=
  let s := severities l
  if s.length = 0 then 0 else ((s.sum : Int) : ℚ) / (s.length : ℚ)

/-- Count of entries in `l` whose severity equals `v`. -/
def countSeverity (l : List StatEntry) (v : Int) : Nat :=
  (l.filter (fun e => decide (e.severity = some v))).length

/-- The distinct food names appearing across a list of entries, in first
appearance order. -/
def distinctFoods (l : List StatEntry) : List String :=
  (l.flatMap (fun e => e.foods)).dedup

/-- Modelled from the spec (section 4.1): number of distinct days on which
the food `f` appears in an entry of `l`. -/
def foodDayCount (l : List StatEntry) (f : String) : Nat :=
  (((l.filter (fun e => decide (f ∈ e.foods))).map (fun e => e.date)).dedup).length

/-- Modelled from the spec (section 4.1): the ordering of the `top_foods`
ranking — descending count, ties broken by ascending food name. -/
def topFoodOrder (a b : String × Nat) : Prop :=
  b.2 < a.2 ∨ (a.2 = b.2 ∧ a.1 ≤ b.1)

instance : DecidableRel topFoodOrder := fun a b => by
  unfold topFoodOrder; infer_instance

instance : IsTotal (String × Nat) topFoodOrder where
  total a b := by
    unfold topFoodOrder
    rcases lt_trichotomy a.2 b.2 with h | h | h
    · exact Or.inr (Or.inl h)
    · rcases le_total a.1 b.1 with h1 | h1
      · exact Or.inl (Or.inr ⟨h, h1⟩)
      · exact Or.inr (Or.inr ⟨h.symm, h1⟩)
    · exact Or.inl (Or.inl h)

instance : IsTrans (String × Nat) topFoodOrder where
  trans a b c hab hbc := by
    unfold topFoodOrder at *
    rcases hab with h1 | ⟨e1, h1⟩ <;> rcases hbc with h2 | ⟨e2, h2⟩
    · exact Or.inl (by omega)
    · exact Or.inl (by omega)
    · exact Or.inl (by omega)
    · exact Or.inr ⟨e1.trans e2, le_trans h1 h2⟩

/-- Modelled from the spec (section 4.1): the full ranked `top_foods`
sequence. -/
def topFoodsOf (l : List StatEntry) : List (String × Nat) :=
  List.insertionSort topFoodOrder
    ((distinctFoods l).map (fun f => (f, foodDayCount l f)))

/-- Weekday of an epoch-day number, Monday = 0 … Sunday = 6 (epoch day 0,
1970-01-01, was a Thursday, weekday 3). -/
def weekday (d : Int) : Int :=
  (d + 3) % 7

/-- Modelled from the spec (section 4.1): per-weekday average severity,
`0` for a weekday with no severity-bearing entry in the window. -/
def dowAverages (l : List StatEntry) : List (Int × ℚ) :=
  (List.range 7).map (fun wd =>
    ((wd : Int), averageSeverity (l.filter (fun e => decide (weekday e.date = (wd : Int))))))

/-- Modelled from the spec (section 4.1): all aggregate fields computed
from the windowed entry list. -/
def aggStats (l : List StatEntry) : AggregateStats :=
  { total_entries := l.length
    average_severity := averageSeverity l
    good_days := countSeverity l 1 + countSeverity l 2
    bad_days := countSeverity l 4 + countSeverity l 5
    severity_distribution := [1, 2, 3, 4, 5].map (fun v => (v, countSeverity l v))
    top_foods := topFoodsOf l
    day_of_week_averages := dowAverages l }

/-- Modelled from the spec: `StatisticsCalculator.calculate_all`
(section 4.1), with the reference date `today` passed explicitly as the
design notes direct. -/
def calculate_all (today : Int) (window_days : Option Nat)
    (entries : List StatEntry) : AggregateStats :=
  aggStats (windowedEntries today window_days entries)

/-- Modelled from the spec (section 4.2): the distinct occurrence dates of
food `f` across the entire entry history. -/
def occurrenceDates (entries : List StatEntry) (f : String) : List Int :=
  ((entries.filter (fun e => decide (f ∈ e.foods))).map (fun e => e.date)).dedup

/-- Does entry `e` carry a severity value that reaches `thr`? -/
def severityReaches (thr : Int) (e : StatEntry) : Bool :=
  match e.severity with
  | none => false
  | some s => decide (thr ≤ s)

/-- Modelled from the spec (section 4.2, step 2): an occurrence on date
`d` is a triggered reaction when some entry dated `d+1 … d+delay_days`
has a severity value reaching the threshold. -/
def triggered (entries : List StatEntry) (delay_days : Nat) (thr : Int)
    (d : Int) : Bool :=
  entries.any (fun e =>
    decide (d + 1 ≤ e.date) && decide (e.date ≤ d + (delay_days : Int)) &&
      severityReaches thr e)

/-- Modelled from the spec (section 4.2, step 4): the integer percentage
`round(100 * t / n)` for natural `t ≤ n`, computed in integer arithmetic
as `⌊100 * t / n + 1/2⌋ = (200 * t + n) / (2 * n)`; the theorem
`roundPct_eq_round` below proves it equal to rounding the exact rational.
-/
def roundPct (t n : Nat) : Nat :=
  (200 * t + n) / (2 * n)

/-- Modelled from the spec (section 4.2, steps 1-4): the `FoodPattern`
for one food, with `probability = round(100 * triggered / total)`. -/
def patternFor (entries : List StatEntry) (delay_days : Nat) (thr : Int)
    (f : String) : FoodPattern :=
  let occ := occurrenceDates entries f
  let trig := (occ.filter (triggered entries delay_days thr)).length
  { food := f
    total_occurrences := occ.length
    triggered_reactions := trig
    probability := (roundPct trig occ.length : Int) }

/-- Modelled from the spec (section 4.2): the result ordering — descending
probability, ties by descending total occurrences, remaining ties by
ascending food name. -/
def patternOrder (a b : FoodPattern) : Prop :=
  b.probability < a.probability ∨
    (a.probability = b.probability ∧
      (b.total_occurrences < a.total_occurrences ∨
        (a.total_occurrences = b.total_occurrences ∧ a.food ≤ b.food)))

instance : DecidableRel patternOrder := fun a b => by
  unfold patternOrder; infer_instance

instance : IsTotal FoodPattern patternOrder where
  total a b := by
    unfold patternOrder
    rcases lt_trichotomy a.probability b.probability with h | h | h
    · exact Or.inr (Or.inl h)
    · rcases lt_trichotomy a.total_occurrences b.total_occurrences with h2 | h2 | h2
      · exact Or.inr (Or.inr ⟨h.symm, Or.inl h2⟩)
      · rcases le_total a.food b.food with h3 | h3
        · exact Or.inl (Or.inr ⟨h, Or.inr ⟨h2, h3⟩⟩)
        · exact Or.inr (Or.inr ⟨h.symm, Or.inr ⟨h2.symm, h3⟩⟩)
      · exact Or.inl (Or.inr ⟨h, Or.inl h2⟩)
    · exact Or.inl (Or.inl h)

instance : IsTrans FoodPattern patternOrder where
  trans a b c hab hbc := by
    unfold patternOrder at *
    rcases hab with h1 | ⟨e1, h1⟩ <;> rcases hbc with h2 | ⟨e2, h2⟩
    · exact Or.inl (by omega)
    · exact Or.inl (by omega)
    · exact Or.inl (by omega)
    · refine Or.inr ⟨e1.trans e2, ?_⟩
      rcases h1 with g1 | ⟨f1, g1⟩ <;> rcases h2 with g2 | ⟨f2, g2⟩
      · exact Or.inl (by omega)
      · exact Or.inl (by omega)
      · exact Or.inl (by omega)
      · exact Or.inr ⟨f1.trans f2, le_trans g1 g2⟩

/-- Modelled from the spec: `StatisticsCalculator.detect_patterns`
(section 4.2) — one pattern per distinct food of the entire history,
sorted by `patternOrder`. -/
def detect_patterns (entries : List StatEntry) (delay_days : Nat)
    (severity_threshold : Int) : List FoodPattern :=
  List.insertionSort patternOrder
    ((distinctFoods entries).map (patternFor entries delay_days severity_threshold))

/-- Embedding of `StatisticsDialog.get_selected_days`
(`ui/statistics_dialog.py`): the combo-box index maps to
`{0: 7, 1: 14, 2: 30, 3: 90, 4: None}`; `dict.get` yields `None` for any
other index. -/
def get_selected_days (index : Nat) : Option Nat :=
  if index = 0 then some 7
  else if index = 1 then some 14
  else if index = 2 then some 30
  else if index = 3 then some 90
  else none

/-- The dialog state read by the statistics callbacks: the time-range
combo index and the two pattern spin-box values
(`ui/statistics_dialog.py`). -/
structure DialogState where
  timeRangeIndex : Nat
  delayDays : Nat
  threshold : Int
deriving DecidableEq, Repr

/-- Embedding of `StatisticsDialog.update_patterns`
(`ui/statistics_dialog.py` lines 474-479): it reads only the delay and
threshold spin boxes and calls `detect_patterns` on the full history —
the time-range selection is not consulted. -/
def update_patterns (st : DialogState) (entries : List StatEntry) :
    List FoodPattern :=
  detect_patterns entries st.delayDays st.threshold

/-- Embedding of the statistics part of `StatisticsDialog.load_statistics`:
`calculate_all` applied to the window selected by the combo box. -/
def load_statistics (today : Int) (st : DialogState)
    (entries : List StatEntry) : AggregateStats :=
  calculate_all today (get_selected_days st.timeRangeIndex) entries

/-- The state of `EntryPanel` (`ui/entry_panel.py`) that `save_entry`
reads: the selected date (ISO string, `none` when no date is selected),
the chosen severity, the fixed food list the checkbox grid was built
from, the set of checked boxes, and the two note texts. -/
structure PanelState where
  current_date : Option String
  current_severity : Option Int
  fixed_foods : List String
  checkedFoods : List String
  skin_text : String
  food_text : String
deriving DecidableEq, Repr

/-- Embedding of the checkbox dictionary built in `EntryPanel.setup_ui`
(lines 158-192): `food_checkboxes` is a dict keyed by food name, so each
name occurs once, in first-insertion order. -/
def food_checkboxes (p : PanelState) : List String :=
  p.fixed_foods.dedup

/-- Embedding of `EntryPanel.get_selected_foods` (lines 319-321): the
checked subset of the checkbox keys, in dict order. -/
def get_selected_foods (p : PanelState) : List String :=
  (food_checkboxes p).filter (fun f => decide (f ∈ p.checkedFoods))

/-- Embedding of `EntryPanel.save_entry` (lines 404-421): returns the
`DayEntry` handed to `data_manager.add_or_update_entry`, or `none` when
the method returns early (no date selected, or no severity chosen) and
the store is left untouched. -/
def save_entry (now : String) (p : PanelState) : Option DayEntry :=
  match p.current_date with
  | none => none
  | some d =>
    match p.current_severity with
    | none => none
    | some s =>
      some (DayEntry.init now d (some s) (some (get_selected_foods p))
        ("") (p.skin_text.trim) (p.food_text.trim) none none)

/-- The severity values of the five buttons built in `EntryPanel.setup_ui`
(lines 100-109): `enumerate(["1","2","3","4","5"], start=1)`. -/
def buttonSeverities : List Int :=
  [1, 2, 3, 4, 5]

/-- The events that assign `EntryPanel.current_severity` in
`ui/entry_panel.py`: a severity-button click (`set_severity(i)` with a
button value), `set_date` on a date that has a stored entry (loading that
entry's severity), and the resets in `set_date` without an entry,
`delete_entry` and `clear`. -/
inductive SevEvent where
  | clickButton : (i : Int) → i ∈ buttonSeverities → SevEvent
  | loadEntry : DayEntry → SevEvent
  | reset : SevEvent

/-- The effect of one event on `current_severity`. -/
def applySevEvent : Option Int → SevEvent → Option Int
  | _, SevEvent.clickButton i _ => some i
  | _, SevEvent.loadEntry e => e.severity
  | _, SevEvent.reset => none

/-- `current_severity` after a sequence of events, starting from the
initial `None` set at the end of `setup_ui`. -/
def runSevEvents (evs : List SevEvent) : Option Int :=
  evs.foldl applySevEvent none

/-- The two-entry history of the specification's worked example: 2024-01-01
(epoch day 19723, severity 2, Milk) and 2024-01-02 (epoch day 19724,
severity 5, Milk). -/
def milkEntries : List StatEntry :=
  [{ date := 19723, severity := some 2, foods := [("Milk")] },
   { date := 19724, severity := some 5, foods := [("Milk")] }]

/-- A concrete stored entry with non-empty timestamps, used as witness
input. -/
def sampleEntry : DayEntry :=
  { date := ("2024-01-01"), severity := some 2, foods := [("Milk")],
    notes := (""), skin_notes := (""), food_notes := (""),
    created_at := ("tc"), updated_at := ("tu") }

/-- A panel state with no selected date (and no chosen severity). -/
def panelNoDate : PanelState :=
  { current_date := none, current_severity := none,
    fixed_foods := [("Milch"), ("Eier")], checkedFoods := [("Milch")],
    skin_text := (""), food_text := ("") }

/-- A panel state ready to save: a date is selected and severity 3 was
chosen by a button click. -/
def panelReady : PanelState :=
  { current_date := some ("2024-01-01"), current_severity := some 3,
    fixed_foods := [("Milch"), ("Eier")], checkedFoods := [("Milch")],
    skin_text := (""), food_text := ("") }

/-- The entry `save_entry` hands to `add_or_update_entry` for
`panelReady` at clock value `T3`. -/
def panelSavedEntry : DayEntry :=
  { date := ("2024-01-01"), severity := some 3, foods := [("Milch")],
    notes := (""), skin_notes := ("").trim, food_notes := ("").trim,
    created_at := ("T3"), updated_at := ("T3") }

/-- The one-event history of a click on the severity-3 button. -/
def clickThree : List SevEvent :=
  [SevEvent.clickButton 3 (by decide)]

/-- Integer-arithmetic rounding agrees with rounding the exact rational:
for `n > 0`, `roundPct t n = round(100 * t / n)`. -/
theorem roundPct_eq_round (t n : Nat) (hn : 0 < n) :
    (roundPct t n : ℤ) = round (((100 * t : Nat) : ℚ) / (n : ℚ)) := by
  rw [round_eq]
  have hq : ((100 * t : Nat) : ℚ) / (n : ℚ) + 1 / 2
      = ((200 * t + n : Nat) : ℚ) / ((2 * n : Nat) : ℚ) := by
    have hn0 : ((n : ℚ)) ≠ 0 := by positivity
    push_cast
    field_simp
    ring
  rw [hq]
  have hnn : (0 : ℚ) ≤ ((200 * t + n : Nat) : ℚ) / ((2 * n : Nat) : ℚ) := by
    positivity
  rw [← Int.natCast_floor_eq_floor hnn, Nat.floor_div_eq_div]
  rfl

/-- Every severity value reachable through the panel's events is absent or
lies in [1,5], provided every entry loaded from the store satisfies the
severity invariant. -/
theorem sevOk_foldl (evs : List SevEvent) :
    ∀ o, sevOk o →
      (∀ e : DayEntry, SevEvent.loadEntry e ∈ evs → sevOk e.severity) →
      sevOk (evs.foldl applySevEvent o) := by
  induction evs with
  | nil => intro o ho _; exact ho
  | cons ev rest ih =>
    intro o ho hst
    rw [List.foldl_cons]
    refine ih _ ?_ (fun e he => hst e (List.mem_cons_of_mem _ he))
    cases ev with
    | clickButton i hi =>
      show sevOk (some i)
      have hiv : i = 1 ∨ i = 2 ∨ i = 3 ∨ i = 4 ∨ i = 5 := by
        simpa [buttonSeverities] using hi
      rcases hiv with rfl | rfl | rfl | rfl | rfl <;> exact (by decide)
    | loadEntry e => exact hst e (List.mem_cons_self _ _)
    | reset => exact trivial

/-- Claim C1: on the two-entry history {2024-01-01: severity 2, [Milk]},
{2024-01-02: severity 5, [Milk]}, `detect_patterns(1, 4)` returns exactly
one pattern, for Milk, with 2 occurrences, 1 triggered reaction and
probability 50; moreover, in general, an occurrence on date `d` counts as
triggered exactly when some entry dated `d+1 … d+delay_days` has a
severity value reaching the threshold, and every reported probability is
`round(100 * triggered_reactions / total_occurrences)`. -/
theorem claim_C1 :
    detect_patterns milkEntries 1 4 =
      [{ food := ("Milk"), total_occurrences := 2, triggered_reactions := 1,
         probability := 50 }]
  ∧ (∀ (entries : List StatEntry) (delay_days : Nat) (thr d : Int),
      triggered entries delay_days thr d = true ↔
        ∃ e ∈ entries, d + 1 ≤ e.date ∧ e.date ≤ d + (delay_days : Int) ∧
          ∃ s, e.severity = some s ∧ thr ≤ s)
  ∧ (∀ (entries : List StatEntry) (delay_days : Nat) (thr : Int)
      (p : FoodPattern), p ∈ detect_patterns entries delay_days thr →
      0 < p.total_occurrences ∧
      p.probability = round (((100 * p.triggered_reactions : Nat) : ℚ)
        / (p.total_occurrences : ℚ))) := by
  refine ⟨by decide, ?_, ?_⟩
  · intro entries delay_days thr d
    unfold triggered severityReaches
    rw [List.any_eq_true]
    constructor
    · rintro ⟨e, he, hh⟩
      refine ⟨e, he, ?_⟩
      cases hs : e.severity with
      | none => rw [hs] at hh; simp at hh
      | some s =>
        rw [hs] at hh
        simp at hh
        exact ⟨hh.1.1, hh.1.2, s, rfl, hh.2⟩
    · rintro ⟨e, he, h1, h2, s, hs, h3⟩
      refine ⟨e, he, ?_⟩
      rw [hs]
      simp [h1, h2, h3]
  · intro entries delay_days thr p hp
    have hperm : (detect_patterns entries delay_days thr).Perm
        ((distinctFoods entries).map (patternFor entries delay_days thr)) :=
      List.perm_insertionSort patternOrder _
    rw [hperm.mem_iff, List.mem_map] at hp
    obtain ⟨f, hf, rfl⟩ := hp
    simp only [distinctFoods, List.mem_dedup, List.mem_flatMap] at hf
    obtain ⟨e, he, hfe⟩ := hf
    have hocc : 0 < (occurrenceDates entries f).length := by
      have h1 : e ∈ entries.filter (fun e2 => decide (f ∈ e2.foods)) :=
        List.mem_filter.mpr ⟨he, by simpa⟩
      have h2 : e.date ∈ (entries.filter
          (fun e2 => decide (f ∈ e2.foods))).map (fun e2 => e2.date) :=
        List.mem_map_of_mem _ h1
      have h3 : e.date ∈ occurrenceDates entries f := List.mem_dedup.mpr h2
      exact List.length_pos.mpr (List.ne_nil_of_mem h3)
    exact ⟨hocc, roundPct_eq_round _ _ hocc⟩

/-- Claim C2: for `window_days = w ≥ 1`, `calculate_all` considers exactly
the entries dated in `[today - (w-1), today]`; a 7-day window keeps the
date 6 days before today and drops the date 7 days before; with
`window_days` absent every entry is considered; and entries outside the
window contribute to no output field (the result is computed from the
windowed list alone). -/
theorem claim_C2 (today : Int) (entries : List StatEntry) (w : Nat)
    (hw : 1 ≤ w) :
    (∀ e, e ∈ windowedEntries today (some w) entries ↔
      e ∈ entries ∧ today - ((w : Int) - 1) ≤ e.date ∧ e.date ≤ today)
  ∧ inWindow today 7 (today - 6) = true
  ∧ inWindow today 7 (today - 7) = false
  ∧ windowedEntries today none entries = entries
  ∧ calculate_all today (some w) entries
      = calculate_all today (some w) (windowedEntries today (some w) entries) := by
  refine ⟨?_, ?_, ?_, rfl, ?_⟩
  · intro e
    simp [windowedEntries, inWindow, List.mem_filter]
  · simp [inWindow]
  · simp [inWindow]
    omega
  · show aggStats _ = aggStats _
    congr 1
    show List.filter _ entries = List.filter _ (List.filter _ entries)
    rw [List.filter_filter]
    simp

/-- Witness for claim C2 at `today = 0`, `w = 7`: the boundary dates. -/
theorem claim_C2_witness :
    inWindow 0 7 (0 - 6) = true ∧ inWindow 0 7 (0 - 7) = false :=
  ⟨(claim_C2 0 [] 7 (by decide)).2.1, (claim_C2 0 [] 7 (by decide)).2.2.1⟩

/-- Counterexample to claim C3 as stated: the constructor performs no
validation, so `DayEntry(date, severity=7, foods=["Milk","Milk"])`
produces an entry violating both halves of the invariant. -/
theorem claim_C3_counterexample :
    (DayEntry.init ("T0") ("2024-01-07") (some 7) (some [("Milk"), ("Milk")])
        ("") ("") ("") none none).invariant ↔ False := by
  decide

/-- Claim C3 (amended): the constructor, `from_dict` and `update` perform
no validation, so the invariant is conditional — each produces (or
preserves) an invariant-satisfying entry exactly when the supplied
severity is absent or in [1,5] and the supplied foods list, after the
defaulting the code applies, is duplicate-free. -/
theorem claim_C3 (now now2 now3 date : String) (sev : Option Int)
    (foods : Option (List String)) (nts sk fd : String)
    (cAt uAt : Option String) (d : EntryDict) (e : DayEntry)
    (usev : Option Int) (ufoods : Option (List String))
    (un usk ufd : Option String)
    (hsev : sevOk sev) (hfoods : (foods.getD []).Nodup)
    (hdsev : sevOk d.severity) (hdfoods : (d.foods.getD []).Nodup)
    (he : e.invariant) (husev : sevOk usev)
    (hufoods : ∀ l, ufoods = some l → l.Nodup) :
    (DayEntry.init now date sev foods nts sk fd cAt uAt).invariant
  ∧ (DayEntry.from_dict now2 d).invariant
  ∧ (e.update now3 usev ufoods un usk ufd).invariant := by
  refine ⟨⟨hsev, hfoods⟩,
    ⟨hdsev, by simpa [DayEntry.from_dict, DayEntry.init]⟩, ?_, ?_⟩
  · cases usev with
    | none => simpa [DayEntry.update] using he.1
    | some s => simpa [DayEntry.update] using husev
  · cases ufoods with
    | none => simpa [DayEntry.update] using he.2
    | some l => simpa [DayEntry.update] using hufoods l rfl

/-- Witness for the amended claim C3 at concrete, valid inputs. -/
theorem claim_C3_witness :
    (DayEntry.init ("T1") ("2024-01-01") (some 3) (some [("Milk")])
        ("") ("") ("") none none).invariant
  ∧ (DayEntry.from_dict ("T1")
      { date := ("2024-01-02"), severity := some 2, foods := some [("Egg")],
        notes := none, skin_notes := none, food_notes := none,
        created_at := none, updated_at := none }).invariant
  ∧ (DayEntry.update
      { date := ("2024-01-03"), severity := some 1, foods := [],
        notes := (""), skin_notes := (""), food_notes := (""),
        created_at := ("tc"), updated_at := ("tu") }
      ("T2") (some 4) none none none none).invariant :=
  claim_C3 ("T1") ("T1") ("T2") ("2024-01-01") (some 3) (some [("Milk")])
    ("") ("") ("") none none
    { date := ("2024-01-02"), severity := some 2, foods := some [("Egg")],
      notes := none, skin_notes := none, food_notes := none,
      created_at := none, updated_at := none }
    { date := ("2024-01-03"), severity := some 1, foods := [],
      notes := (""), skin_notes := (""), food_notes := (""),
      created_at := ("tc"), updated_at := ("tu") }
    (some 4) none none none none
    (by decide) (by decide) (by decide) (by decide) (by decide) (by decide)
    (fun l h => nomatch h)

/-- Claim C4: `average_severity` is the mean of the present severity
values of the windowed entries (severity-absent entries count in neither
numerator nor denominator) and `0` when none is present, while
`total_entries` counts every windowed entry; on the concrete window
holding a severity-3 entry and a severity-less entry the average is 3.0
and the total is 2. -/
theorem claim_C4 (today : Int) (ow : Option Nat) (entries : List StatEntry) :
    ((calculate_all today ow entries).average_severity =
      if (severities (windowedEntries today ow entries)).length = 0 then 0
      else ((severities (windowedEntries today ow entries)).sum : ℚ)
            / ((severities (windowedEntries today ow entries)).length : ℚ))
  ∧ (calculate_all today ow entries).total_entries
      = (windowedEntries today ow entries).length
  ∧ (calculate_all today (some 2)
      [{ date := today, severity := some 3, foods := [] },
       { date := today - 1, severity := none, foods := [] }]).average_severity = 3
  ∧ (calculate_all today (some 2)
      [{ date := today, severity := some 3, foods := [] },
       { date := today - 1, severity := none, foods := [] }]).total_entries = 2 := by
  refine ⟨rfl, rfl, ?_, ?_⟩
  · simp [calculate_all, windowedEntries, aggStats, averageSeverity, severities,
      inWindow]
  · simp [calculate_all, windowedEntries, aggStats, inWindow]

/-- Claim C5: the sequence `detect_patterns` returns is sorted by
descending probability, ties by descending total occurrences, remaining
ties by ascending food name; it holds a pattern for exactly the foods
appearing somewhere in the full history (no food is suppressed), each
food exactly once. -/
theorem claim_C5 (entries : List StatEntry) (delay_days : Nat) (thr : Int) :
    List.Sorted patternOrder (detect_patterns entries delay_days thr)
  ∧ (∀ f : String, (∃ e ∈ entries, f ∈ e.foods) ↔
      ∃ p ∈ detect_patterns entries delay_days thr, p.food = f)
  ∧ ((detect_patterns entries delay_days thr).map FoodPattern.food).Nodup := by
  have hperm : (detect_patterns entries delay_days thr).Perm
      ((distinctFoods entries).map (patternFor entries delay_days thr)) :=
    List.perm_insertionSort patternOrder _
  have hmapeq : ((distinctFoods entries).map
      (patternFor entries delay_days thr)).map FoodPattern.food
      = distinctFoods entries := by
    rw [List.map_map]
    have : (FoodPattern.food ∘ patternFor entries delay_days thr)
        = fun g => g := by
      funext g; rfl
    rw [this, List.map_id']
  refine ⟨List.sorted_insertionSort patternOrder _, ?_, ?_⟩
  · intro f
    constructor
    · rintro ⟨e, he, hf⟩
      refine ⟨patternFor entries delay_days thr f, ?_, rfl⟩
      rw [hperm.mem_iff]
      exact List.mem_map_of_mem _ (by
        simp only [distinctFoods, List.mem_dedup, List.mem_flatMap]
        exact ⟨e, he, hf⟩)
    · rintro ⟨p, hp, hpf⟩
      rw [hperm.mem_iff, List.mem_map] at hp
      obtain ⟨g, hg, rfl⟩ := hp
      have : g = f := hpf
      subst this
      simp only [distinctFoods, List.mem_dedup, List.mem_flatMap] at hg
      exact hg
  · refine ((hperm.map FoodPattern.food).nodup_iff).mpr ?_
    rw [hmapeq]
    exact List.nodup_dedup _

/-- Claim C6: `top_foods` lists every food of the windowed entries paired
with the number of distinct days it appears on, sorted by descending
count with ties by ascending name, with no truncation and each food
listed once (so the order is deterministic). -/
theorem claim_C6 (today : Int) (ow : Option Nat) (entries : List StatEntry) :
    List.Sorted topFoodOrder (calculate_all today ow entries).top_foods
  ∧ (∀ f : String,
      (∃ e ∈ windowedEntries today ow entries, f ∈ e.foods) ↔
        ∃ p ∈ (calculate_all today ow entries).top_foods, p.1 = f)
  ∧ (∀ p ∈ (calculate_all today ow entries).top_foods,
      p.2 = foodDayCount (windowedEntries today ow entries) p.1)
  ∧ ((calculate_all today ow entries).top_foods.map Prod.fst).Nodup := by
  set l := windowedEntries today ow entries with hl
  have htf : (calculate_all today ow entries).top_foods = topFoodsOf l := rfl
  have hperm : (topFoodsOf l).Perm
      ((distinctFoods l).map (fun f => (f, foodDayCount l f))) :=
    List.perm_insertionSort topFoodOrder _
  have hmapeq : ((distinctFoods l).map
      (fun f => (f, foodDayCount l f))).map Prod.fst = distinctFoods l := by
    rw [List.map_map]
    have : (Prod.fst ∘ fun f => (f, foodDayCount l f)) = fun g => g := by
      funext g; rfl
    rw [this, List.map_id']
  rw [htf]
  refine ⟨List.sorted_insertionSort topFoodOrder _, ?_, ?_, ?_⟩
  · intro f
    constructor
    · rintro ⟨e, he, hf⟩
      refine ⟨(f, foodDayCount l f), ?_, rfl⟩
      rw [hperm.mem_iff]
      exact List.mem_map_of_mem _ (by
        simp only [distinctFoods, List.mem_dedup, List.mem_flatMap]
        exact ⟨e, he, hf⟩)
    · rintro ⟨p, hp, hpf⟩
      rw [hperm.mem_iff, List.mem_map] at hp
      obtain ⟨g, hg, rfl⟩ := hp
      have : g = f := hpf
      subst this
      simp only [distinctFoods, List.mem_dedup, List.mem_flatMap] at hg
      exact hg
  · intro p hp
    rw [hperm.mem_iff, List.mem_map] at hp
    obtain ⟨g, hg, rfl⟩ := hp
    rfl
  · refine ((hperm.map Prod.fst).nodup_iff).mpr ?_
    rw [hmapeq]
    exact List.nodup_dedup _

/-- Claim C7: the patterns callback of the dialog is independent of the
time-range selection — for any two combo-box indices the result is the
same, and it equals `detect_patterns` over the full history with the two
spin-box parameters; the selection does map to real windows elsewhere
(`0 ↦ 7 days`, `4 ↦ all data`). -/
theorem claim_C7 (entries : List StatEntry) (delay_days : Nat) (thr : Int)
    (idx1 idx2 : Nat) :
    update_patterns
        { timeRangeIndex := idx1, delayDays := delay_days, threshold := thr }
        entries
      = update_patterns
        { timeRangeIndex := idx2, delayDays := delay_days, threshold := thr }
        entries
  ∧ update_patterns
        { timeRangeIndex := idx1, delayDays := delay_days, threshold := thr }
        entries
      = detect_patterns entries delay_days thr
  ∧ get_selected_days 0 = some 7
  ∧ get_selected_days 4 = none :=
  ⟨rfl, rfl, rfl, rfl⟩

/-- Claim C8: `from_dict` after `to_dict` is a round trip on all eight
fields, given the entry's timestamps are non-empty (as they are after
construction, where a falsy timestamp is replaced by the clock value). -/
theorem claim_C8 (e : DayEntry) (now : String)
    (hc : e.created_at ≠ "") (hu : e.updated_at ≠ "") :
    DayEntry.from_dict now e.to_dict = e := by
  cases e with
  | mk d s f n sk fd c u =>
    simp only [DayEntry.from_dict, DayEntry.to_dict, DayEntry.init, pyOrStr,
      Option.getD_some] at *
    rw [if_neg hc, if_neg hu]

/-- Witness for claim C8 on a concrete entry with non-empty timestamps. -/
theorem claim_C8_witness :
    DayEntry.from_dict ("T9") sampleEntry.to_dict = sampleEntry :=
  claim_C8 sampleEntry ("T9") (by decide) (by decide)

/-- Claim C9: `update` leaves every field whose argument is `None`
unchanged, never touches `date` and `created_at`, unconditionally sets
`updated_at` to the clock value, and can never turn a present severity
absent. -/
theorem claim_C9 (e : DayEntry) (now : String) (sev : Option Int)
    (foods : Option (List String)) (nts sk fd : Option String) :
    (e.update now sev foods nts sk fd).date = e.date
  ∧ (e.update now sev foods nts sk fd).created_at = e.created_at
  ∧ (e.update now sev foods nts sk fd).updated_at = now
  ∧ (sev = none → (e.update now sev foods nts sk fd).severity = e.severity)
  ∧ (foods = none → (e.update now sev foods nts sk fd).foods = e.foods)
  ∧ (nts = none → (e.update now sev foods nts sk fd).notes = e.notes)
  ∧ (sk = none → (e.update now sev foods nts sk fd).skin_notes = e.skin_notes)
  ∧ (fd = none → (e.update now sev foods nts sk fd).food_notes = e.food_notes)
  ∧ ((e.update now sev foods nts sk fd).severity = none → e.severity = none) := by
  refine ⟨rfl, rfl, rfl, ?_, ?_, ?_, ?_, ?_, ?_⟩
  · rintro rfl; rfl
  · rintro rfl; rfl
  · rintro rfl; rfl
  · rintro rfl; rfl
  · rintro rfl; rfl
  · cases sev with
    | none => exact fun h => by simpa [DayEntry.update] using h
    | some s => intro h; simp [DayEntry.update] at h

/-- Witness for claim C9: an all-`None` update leaves the severity of a
concrete entry unchanged. -/
theorem claim_C9_witness :
    (sampleEntry.update ("T2") none none none none none).severity
      = sampleEntry.severity :=
  (claim_C9 sampleEntry ("T2") none none none none none).2.2.2.1 rfl

/-- Claim C10: `save_entry` issues no write when no date is selected or no
severity is chosen; when it writes, the entry's severity is the panel's
chosen one — present, and in [1,5] whenever the panel's severity was
reached through the severity buttons and entries of an invariant-holding
store — and its foods are the checked subset of the distinct checkbox
keys, hence duplicate-free. -/
theorem claim_C10 (now : String) (p : PanelState) (evs : List SevEvent)
    (hstore : ∀ e : DayEntry, SevEvent.loadEntry e ∈ evs → sevOk e.severity)
    (hsev : p.current_severity = runSevEvents evs) :
    (p.current_date = none → save_entry now p = none)
  ∧ (p.current_severity = none → save_entry now p = none)
  ∧ (∀ entry : DayEntry, save_entry now p = some entry →
      entry.severity = p.current_severity
      ∧ entry.severity ≠ none
      ∧ sevOk entry.severity
      ∧ entry.foods = get_selected_foods p
      ∧ entry.foods.Nodup) := by
  have hOk : sevOk p.current_severity := by
    rw [hsev]; exact sevOk_foldl evs none trivial hstore
  refine ⟨?_, ?_, ?_⟩
  · intro h; simp [save_entry, h]
  · intro h
    unfold save_entry
    cases hd : p.current_date with
    | none => rfl
    | some d => rw [h]
  · intro entry hsave
    unfold save_entry at hsave
    cases hd : p.current_date with
    | none => rw [hd] at hsave; simp at hsave
    | some d =>
      rw [hd] at hsave
      cases hs : p.current_severity with
      | none => rw [hs] at hsave; simp at hsave
      | some s =>
        rw [hs] at hsave
        simp only [Option.some_inj] at hsave
        subst hsave
        refine ⟨rfl, by simp [DayEntry.init], ?_, rfl, ?_⟩
        · rw [hs] at hOk
          exact hOk
        · exact (List.nodup_dedup _).filter _

/-- Witness for claim C10: the date-less panel writes nothing, and the
ready panel's written entry has the clicked severity 3 and the
duplicate-free checked foods. -/
theorem claim_C10_witness :
    save_entry ("T3") panelNoDate = none
  ∧ (panelSavedEntry.severity = panelReady.current_severity
      ∧ panelSavedEntry.severity ≠ none
      ∧ sevOk panelSavedEntry.severity
      ∧ panelSavedEntry.foods = get_selected_foods panelReady
      ∧ panelSavedEntry.foods.Nodup) := by
  constructor
  · exact (claim_C10 ("T3") panelNoDate [] (fun e he => nomatch he) rfl).1 rfl
  · exact (claim_C10 ("T3") panelReady clickThree
      (fun e he => nomatch he) rfl).2.2 panelSavedEntry rfl
